import Mathlib

/-!
Verification of the stack definition in `lib/cdk-s3-website-stack.ts` of the
kasukur/cdk-s3-website repository.

The repository authors a single CDK stack that declares three constructs:
an S3 bucket configured for static-website hosting, a bucket deployment that
uploads the local `./website` directory into that bucket, and a CloudFormation
output exporting the bucket website URL.  The stack constructor is embedded
below as a pure function from its inputs (scope, id, props) to the list of
declarations it makes, mirroring the source line by line.  Behaviour that the
repository delegates to the external toolchain (aws-cdk-lib validation of
`publicReadAccess` against `blockPublicAccess`, object cleanup on stack
teardown, the mechanism by which public read access is granted) is modelled
from the specification and marked as such.
-/

/-- The removal policy of a resource, as in `cdk.RemovalPolicy`.  The source
uses `cdk.RemovalPolicy.DESTROY`. -/
inductive RemovalPolicy where
  | DESTROY
  | RETAIN
deriving DecidableEq, Repr

/-- The four boolean switches of an S3 block-public-access configuration, as
in `s3.BlockPublicAccess`. -/
structure BlockPublicAccessOptions where
  blockPublicAcls : Bool
  blockPublicPolicy : Bool
  ignorePublicAcls : Bool
  restrictPublicBuckets : Bool
deriving DecidableEq, Repr

namespace BlockPublicAccess

/-- `s3.BlockPublicAccess.BLOCK_ALL`: every switch on. -/
def BLOCK_ALL : BlockPublicAccessOptions :=
  { blockPublicAcls := true
    blockPublicPolicy := true
    ignorePublicAcls := true
    restrictPublicBuckets := true }

/-- `s3.BlockPublicAccess.BLOCK_ACLS`: blocks and ignores ACLs while leaving
bucket-level public policies allowed.  This is the value the source passes. -/
def BLOCK_ACLS : BlockPublicAccessOptions :=
  { blockPublicAcls := true
    blockPublicPolicy := false
    ignorePublicAcls := true
    restrictPublicBuckets := false }

end BlockPublicAccess

/-- The bucket configuration record: exactly the four properties that the
source passes to `new s3.Bucket(...)` — index document name, public-read flag,
removal policy, and block-public-access policy.  `blockPublicAccess` is
optional in the toolchain interface, so it is an `Option` here; the source
sets it explicitly. -/
structure BucketProps where
  websiteIndexDocument : String
  publicReadAccess : Bool
  removalPolicy : RemovalPolicy
  blockPublicAccess : Option BlockPublicAccessOptions
deriving DecidableEq, Repr

/-- The bucket construct: the scope path of the stack that declared it, the
construct id given at declaration, and its configuration record. -/
structure Bucket where
  scope : String
  constructId : String
  props : BucketProps
deriving DecidableEq, Repr

/-- An unresolved token: a value computed by the external toolchain, only
referenced by the stack code.  The single token the source references is
`websiteBucket.bucketWebsiteUrl`. -/
inductive Token where
  | bucketWebsiteUrl (bucket : Bucket)
deriving DecidableEq, Repr

/-- The derived website-URL attribute of a bucket, as in
`bucket.bucketWebsiteUrl`: an unresolved token computed by the external
toolchain from the bucket configuration.  The stack code only references it
and performs no computation of its own on it. -/
def Bucket.bucketWebsiteUrl (b : Bucket) : Token :=
  Token.bucketWebsiteUrl b

/-- A source for a bucket deployment, as in `s3Deploy.Source.asset(...)`. -/
inductive Source where
  | asset (path : String)
deriving DecidableEq, Repr

/-- The deployment configuration record passed to
`new s3Deploy.BucketDeployment(...)`: its construct id, its list of sources,
and the destination bucket object it references. -/
structure BucketDeployment where
  constructId : String
  sources : List Source
  destinationBucket : Bucket
deriving DecidableEq, Repr

/-- The output record passed to `new cdk.CfnOutput(...)`: its construct id and
its value, a token. -/
structure CfnOutput where
  constructId : String
  value : Token
deriving DecidableEq, Repr

/-- One declaration made by the stack constructor. -/
inductive Decl where
  | bucket (b : Bucket)
  | deployment (d : BucketDeployment)
  | output (o : CfnOutput)
deriving DecidableEq, Repr

/-- The shape of a declaration, forgetting its configuration. -/
inductive DeclKind where
  | bucket
  | deployment
  | output
deriving DecidableEq, Repr

/-- The kind of a declaration. -/
def Decl.kind : Decl → DeclKind
  | .bucket _ => .bucket
  | .deployment _ => .deployment
  | .output _ => .output

/-- Project a declaration to a bucket, when it is one. -/
def Decl.asBucket : Decl → Option Bucket
  | .bucket b => some b
  | _ => none

/-- Project a declaration to a deployment, when it is one. -/
def Decl.asDeployment : Decl → Option BucketDeployment
  | .deployment d => some d
  | _ => none

/-- Project a declaration to an output, when it is one. -/
def Decl.asOutput : Decl → Option CfnOutput
  | .output o => some o
  | _ => none

/-- The bucket declarations of a declaration list. -/
def buckets (ds : List Decl) : List Bucket :=
  ds.filterMap Decl.asBucket

/-- The deployment declarations of a declaration list. -/
def deployments (ds : List Decl) : List BucketDeployment :=
  ds.filterMap Decl.asDeployment

/-- The output declarations of a declaration list. -/
def outputs (ds : List Decl) : List CfnOutput :=
  ds.filterMap Decl.asOutput

/-- `cdk.StackProps` as consumed by the constructor: the source only forwards
it to the base-class constructor and never reads it, so its fields are
irrelevant; a representative optional field stands for the record. -/
structure StackProps where
  description : Option String
deriving DecidableEq, Repr

/-- The bucket configuration literal the source passes to `new s3.Bucket`:
index document `index.html`, public read access on, removal policy DESTROY,
block-public-access policy BLOCK_ACLS. -/
def websiteBucketProps : BucketProps :=
  { websiteIndexDocument := "index.html"
    publicReadAccess := true
    removalPolicy := RemovalPolicy.DESTROY
    blockPublicAccess := some BlockPublicAccess.BLOCK_ACLS }

/-- The `websiteBucket` local of the constructor, as a function of the stack
construct path (parent scope and stack id): a bucket with construct id
`SriSriWebsiteBucket` and the configuration literal of the source. -/
def stackWebsiteBucket (scope id : String) : Bucket :=
  { scope := scope ++ "/" ++ id
    constructId := "SriSriWebsiteBucket"
    props := websiteBucketProps }

/-- The body of the `CdkS3WebsiteStack` constructor: given its three inputs it
declares, in order, the website bucket, the bucket deployment with the single
asset source `./website` whose destination is that same bucket object, and the
`WebsiteURL` output whose value is that bucket's website-URL attribute. -/
def CdkS3WebsiteStack.construct (scope id : String) (props : Option StackProps) : List Decl :=
  let websiteBucket : Bucket := stackWebsiteBucket scope id
  [ Decl.bucket websiteBucket,
    Decl.deployment
      { constructId := "DeployWebsite"
        sources := [Source.asset "./website"]
        destinationBucket := websiteBucket },
    Decl.output
      { constructId := "WebsiteURL"
        value := websiteBucket.bucketWebsiteUrl } ]

/-- Modelled from the spec: whether a block-public-access configuration allows
bucket-level public access to be granted.  This check is performed by the
external toolchain (the `Bucket` construct of aws-cdk-lib, not part of this
repository): public read access is conferred through a bucket policy, so it is
allowed only when a block-public-access policy is configured and does not
block public bucket policies. -/
def publicReadAllowed (bpa : Option BlockPublicAccessOptions) : Bool :=
  match bpa with
  | none => false
  | some o => !o.blockPublicPolicy

/-- Modelled from the spec: the synthesis-time validation the external
toolchain applies to a bucket configuration.  When public read access is
requested while the block-public-access policy disallows it, synthesis is
rejected with the configuration-validation error documented in the
walkthrough; otherwise the configuration is accepted. -/
def validateBucketProps (p : BucketProps) : Except String Unit :=
  if p.publicReadAccess && !(publicReadAllowed p.blockPublicAccess) then
    Except.error "Cannot use publicReadAccess property on a bucket without allowing bucket-level public access through blockPublicAccess property"
  else
    Except.ok ()

/-- Whether every bucket declaration of a list passes validation. -/
def declsValid (ds : List Decl) : Bool :=
  ds.all fun d =>
    match d with
    | Decl.bucket b =>
        match validateBucketProps b.props with
        | Except.ok _ => true
        | Except.error _ => false
    | _ => true

/-- Synthesis of the stack: run the constructor, then apply the external
toolchain's configuration validation to every declared bucket; the template is
the validated declaration list. -/
def synthesize (scope id : String) (props : Option StackProps) : Except String (List Decl) :=
  let ds := CdkS3WebsiteStack.construct scope id props
  if declsValid ds then
    Except.ok ds
  else
    Except.error "configuration-validation rejection"

/-- The auto-cleanup setting of the authored bucket: the source passes no
`autoDeleteObjects` property, so the toolchain default (disabled) applies. -/
def websiteBucketAutoDeleteObjects : Bool := false

/-- The outcome of tearing down a stack for its bucket. -/
inductive TeardownOutcome where
  | retained
  | deleted
  | failedNonEmpty
deriving DecidableEq, Repr

/-- Modelled from the spec: what the external toolchain does to a bucket on
stack teardown, given its removal policy, its auto-cleanup setting, and the
objects it holds.  A RETAIN bucket is kept; a DESTROY bucket is deleted when
it is empty or auto-cleanup deletes its objects first, and otherwise teardown
fails and requires manual emptying. -/
def teardownBucket (removal : RemovalPolicy) (autoDelete : Bool) (objects : List String) :
    TeardownOutcome :=
  match removal with
  | RemovalPolicy.RETAIN => TeardownOutcome.retained
  | RemovalPolicy.DESTROY =>
      if objects.isEmpty || autoDelete then TeardownOutcome.deleted
      else TeardownOutcome.failedNonEmpty

/-- A mechanism by which access to a bucket is granted. -/
inductive AccessGrant where
  | bucketPolicy (actions : List String)
  | acl (grant : String)
deriving DecidableEq, Repr

/-- Whether a grant is ACL-based. -/
def AccessGrant.isAcl : AccessGrant → Bool
  | .acl _ => true
  | _ => false

/-- Modelled from the spec: how the external toolchain confers the requested
public read access (the grantPublicAccess mechanism of aws-cdk-lib, not part
of this repository): a bucket-policy statement allowing object reads to
everyone.  No ACL grant is ever produced, which is why the source pairs
`publicReadAccess` with BLOCK_ACLS. -/
def publicAccessGrants (p : BucketProps) : List AccessGrant :=
  if p.publicReadAccess then [AccessGrant.bucketPolicy ["s3:GetObject"]] else []

/-- C1: for every bucket configuration requesting public read access,
synthesis accepts the configuration exactly when the block-public-access
policy allows the access mode being granted, and rejects it otherwise; the
authored stack pairs publicReadAccess true with BLOCK_ACLS, a consistent pair,
so its validation succeeds. -/
theorem publicRead_blockPolicy_consistency :
    (∀ p : BucketProps, p.publicReadAccess = true →
        (validateBucketProps p = Except.ok () ↔
          publicReadAllowed p.blockPublicAccess = true))
    ∧ websiteBucketProps.publicReadAccess = true
    ∧ websiteBucketProps.blockPublicAccess = some BlockPublicAccess.BLOCK_ACLS
    ∧ validateBucketProps websiteBucketProps = Except.ok () := by
  refine ⟨?_, rfl, rfl, rfl⟩
  intro p hp
  cases h : publicReadAllowed p.blockPublicAccess <;>
    simp [validateBucketProps, hp, h]

/-- Witness for C1: a configuration with public read requested but no
block-public-access policy configured is rejected. -/
theorem publicRead_blockPolicy_consistency_witness :
    validateBucketProps
        { websiteIndexDocument := "index.html"
          publicReadAccess := true
          removalPolicy := RemovalPolicy.DESTROY
          blockPublicAccess := none } ≠ Except.ok () := by
  intro h
  have hiff := (publicRead_blockPolicy_consistency.1
      { websiteIndexDocument := "index.html"
        publicReadAccess := true
        removalPolicy := RemovalPolicy.DESTROY
        blockPublicAccess := none } rfl).mp h
  exact absurd hiff (by decide)

/-- C2: tearing down a DESTROY bucket that holds objects deletes it without
manual emptying exactly when auto-cleanup is enabled; the authored bucket sets
removal policy DESTROY and leaves auto-cleanup at its disabled default. -/
theorem teardown_requires_autoDelete :
    (∀ (autoDelete : Bool) (objects : List String), objects ≠ [] →
        (teardownBucket RemovalPolicy.DESTROY autoDelete objects =
            TeardownOutcome.deleted ↔ autoDelete = true))
    ∧ websiteBucketProps.removalPolicy = RemovalPolicy.DESTROY
    ∧ websiteBucketAutoDeleteObjects = false := by
  refine ⟨?_, rfl, rfl⟩
  intro autoDelete objects hne
  match objects, hne with
  | a :: as, _ => cases autoDelete <;> simp [teardownBucket]

/-- Witness for C2: with auto-cleanup enabled, destroying a bucket holding
one object succeeds. -/
theorem teardown_requires_autoDelete_witness :
    teardownBucket RemovalPolicy.DESTROY true ["index.html"] =
      TeardownOutcome.deleted :=
  (teardown_requires_autoDelete.1 true ["index.html"]
    (List.cons_ne_nil "index.html" [])).mpr rfl

/-- C3: every deployment declared by the stack constructor has a destination
bucket that is itself a bucket declared in the same stack. -/
theorem deployment_destination_declared (scope id : String) (props : Option StackProps) :
    ∀ d ∈ deployments (CdkS3WebsiteStack.construct scope id props),
      d.destinationBucket ∈ buckets (CdkS3WebsiteStack.construct scope id props) := by
  intro d hd
  have hd2 : d =
      { constructId := "DeployWebsite"
        sources := [Source.asset "./website"]
        destinationBucket := stackWebsiteBucket scope id } := by
    simpa [CdkS3WebsiteStack.construct, deployments, Decl.asDeployment] using hd
  subst hd2
  simp [CdkS3WebsiteStack.construct, buckets, Decl.asBucket]

/-- Witness for C3: in a concrete instantiation of the stack, the single
deployment's destination bucket is among the declared buckets. -/
theorem deployment_destination_declared_witness :
    stackWebsiteBucket "app" "CdkS3WebsiteStack" ∈
      buckets (CdkS3WebsiteStack.construct "app" "CdkS3WebsiteStack" none) :=
  deployment_destination_declared "app" "CdkS3WebsiteStack" none
    { constructId := "DeployWebsite"
      sources := [Source.asset "./website"]
      destinationBucket := stackWebsiteBucket "app" "CdkS3WebsiteStack" }
    (by simp [CdkS3WebsiteStack.construct, deployments, Decl.asDeployment])

/-- C4: synthesis is deterministic: equal inputs (scope, id, props) yield
identical declared resource records and an identical generated template. -/
theorem synthesize_deterministic (s1 s2 i1 i2 : String) (p1 p2 : Option StackProps)
    (hs : s1 = s2) (hi : i1 = i2) (hp : p1 = p2) :
    CdkS3WebsiteStack.construct s1 i1 p1 = CdkS3WebsiteStack.construct s2 i2 p2
    ∧ synthesize s1 i1 p1 = synthesize s2 i2 p2 := by
  subst hs; subst hi; subst hp; exact ⟨rfl, rfl⟩

/-- Witness for C4: two synthesis runs over the same concrete configuration
agree. -/
theorem synthesize_deterministic_witness :
    CdkS3WebsiteStack.construct "app" "web" none = CdkS3WebsiteStack.construct "app" "web" none
    ∧ synthesize "app" "web" none = synthesize "app" "web" none :=
  synthesize_deterministic "app" "app" "web" "web" none none rfl rfl rfl

/-- C5: the stack declares exactly one output, and its value is precisely the
declared bucket's derived website-URL token, with no further computation. -/
theorem single_output_is_websiteUrl (scope id : String) (props : Option StackProps) :
    outputs (CdkS3WebsiteStack.construct scope id props) =
      [{ constructId := "WebsiteURL"
         value := Bucket.bucketWebsiteUrl (stackWebsiteBucket scope id) }] := rfl

/-- C6: the stack consists of exactly three declarations: one bucket, one
deployment, and one output. -/
theorem stack_declares_three (scope id : String) (props : Option StackProps) :
    (CdkS3WebsiteStack.construct scope id props).length = 3
    ∧ (buckets (CdkS3WebsiteStack.construct scope id props)).length = 1
    ∧ (deployments (CdkS3WebsiteStack.construct scope id props)).length = 1
    ∧ (outputs (CdkS3WebsiteStack.construct scope id props)).length = 1 :=
  ⟨rfl, rfl, rfl, rfl⟩

/-- C7: the declared bucket's configuration record holds exactly the four
authored fields: index document index.html, public read true, removal policy
DESTROY, and the BLOCK_ACLS block-public-access policy (ACL switches on,
policy switches off). -/
theorem bucket_config_fields (scope id : String) (props : Option StackProps) :
    (buckets (CdkS3WebsiteStack.construct scope id props)).map Bucket.props =
      [{ websiteIndexDocument := "index.html"
         publicReadAccess := true
         removalPolicy := RemovalPolicy.DESTROY
         blockPublicAccess := some
           { blockPublicAcls := true
             blockPublicPolicy := false
             ignorePublicAcls := true
             restrictPublicBuckets := false } }] := rfl

/-- C8: the constructor is straight-line and total: its declarations do not
depend on the props input, and for every input it emits the same sequence of
three declaration kinds, with no branching or error of its own. -/
theorem constructor_straight_line :
    (∀ (scope id : String) (p1 p2 : Option StackProps),
        CdkS3WebsiteStack.construct scope id p1 = CdkS3WebsiteStack.construct scope id p2)
    ∧ (∀ (scope id : String) (props : Option StackProps),
        (CdkS3WebsiteStack.construct scope id props).map Decl.kind =
          [DeclKind.bucket, DeclKind.deployment, DeclKind.output]) :=
  ⟨fun _ _ _ _ => rfl, fun _ _ _ => rfl⟩

/-- C9: the authored bucket's block-public-access policy is BLOCK_ACLS, which
blocks and ignores ACL-based public access while leaving bucket policies
allowed, and the public read access is conferred only through a bucket-policy
grant, never an ACL grant. -/
theorem block_acls_not_acl_grant :
    websiteBucketProps.blockPublicAccess = some BlockPublicAccess.BLOCK_ACLS
    ∧ BlockPublicAccess.BLOCK_ACLS.blockPublicAcls = true
    ∧ BlockPublicAccess.BLOCK_ACLS.ignorePublicAcls = true
    ∧ BlockPublicAccess.BLOCK_ACLS.blockPublicPolicy = false
    ∧ publicAccessGrants websiteBucketProps = [AccessGrant.bucketPolicy ["s3:GetObject"]]
    ∧ (publicAccessGrants websiteBucketProps).all (fun g => !g.isAcl) = true :=
  ⟨rfl, rfl, rfl, rfl, rfl, rfl⟩

/-- C10: the deployment's destination bucket, the bucket whose website URL the
WebsiteURL output exports, and the single declared bucket are all the same
object, and the deployment's only source is the asset directory ./website. -/
theorem single_bucket_shared (scope id : String) (props : Option StackProps) :
    buckets (CdkS3WebsiteStack.construct scope id props) = [stackWebsiteBucket scope id]
    ∧ deployments (CdkS3WebsiteStack.construct scope id props) =
        [{ constructId := "DeployWebsite"
           sources := [Source.asset "./website"]
           destinationBucket := stackWebsiteBucket scope id }]
    ∧ outputs (CdkS3WebsiteStack.construct scope id props) =
        [{ constructId := "WebsiteURL"
           value := Token.bucketWebsiteUrl (stackWebsiteBucket scope id) }] :=
  ⟨rfl, rfl, rfl⟩
